import Mathlib

/-
Shallow embedding of `guardian/managers.py` (django-guardian object-permission
managers): `UserObjectPermissionManager` and `GroupObjectPermissionManager`
with their `assign_perm`, `assign` (deprecated alias), `remove_perm` and
`get_for_object` operations, over an explicit state holding the persisted
assignment rows, the key-value permission cache, the permission catalog
(`Permission.objects`) and group memberships (`User.objects.filter(groups=g)`).

Django collaborators are modelled at their interface:
  * the ORM store of each manager is a list of rows; `get_or_create` is
    find-or-append, `filter(...).delete()` is list filtering;
  * `django.core.cache.cache` is an association list keyed by the
    `ObjectPermissionChecker.get_local_cache_key` key (subject identity plus
    the object's content type and primary key) with get / set / delete;
  * `ContentType.objects.get_for_model(obj)` is the `ctype` field carried by
    the object;
  * `Permission.objects.get(content_type=..., codename=...)` is a lookup in a
    catalog list, `none` standing for the `DoesNotExist` error that the spec
    calls `PermissionNotFoundError`.

Every operation returns the (possibly updated) state together with an
`Except` value, so the error paths (`ObjectNotPersisted`, permission lookup
failure) visibly leave the state unchanged.
-/

set_option autoImplicit false

namespace Guardian

/-- A model instance: `pk` is `getattr(obj, 'pk', None)` and `ctype` is
`ContentType.objects.get_for_model(obj)`. -/
structure Obj where
  pk : Option Nat
  ctype : Nat
deriving DecidableEq

/-- `guardian.models.Permission`: identified by (content type, codename). -/
structure Permission where
  content_type : Nat
  codename : String
deriving DecidableEq

/-- A persisted object-permission assignment row.  The `assign_perm` kwargs
are `permission`, the subject, and the object reference; in the generic
branch the object reference is the explicit (`content_type`, `object_pk`)
pair, in the direct branch it is `content_object`, which denotes the same
(type, primary key) identity, so both branches build the same row here. -/
structure Row where
  permission : Permission
  subjectId : Nat
  content_type : Nat
  object_pk : Nat
deriving DecidableEq

/-- A cache key names its subject kind: `ObjectPermissionChecker` is built
either from a user or from a group. -/
inductive Subject where
  | user (id : Nat)
  | group (id : Nat)
deriving DecidableEq

/-- `ObjectPermissionChecker.get_local_cache_key(obj)`: deterministic in the
subject identity and the object's content type and primary key. -/
structure CacheKey where
  subject : Subject
  ctype : Nat
  pk : Nat
deriving DecidableEq

/-- `django.core.cache.cache`, modelled as an association list. -/
abbrev Cache := List (CacheKey × List String)

/-- `cache.get(key)`. -/
def cache_get (c : Cache) (k : CacheKey) : Option (List String) :=
  (c.find? (fun p => decide (p.1 = k))).map (fun p => p.2)

/-- `cache.set(key, value)`: replace any binding of `k`. -/
def cache_set (c : Cache) (k : CacheKey) (v : List String) : Cache :=
  (k, v) :: c.filter (fun p => decide (p.1 ≠ k))

/-- `cache.delete(key)`. -/
def cache_delete (c : Cache) (k : CacheKey) : Cache :=
  c.filter (fun p => decide (p.1 ≠ k))

/-- The cache-revoke loop of `remove_perm` (lines 88-93 / 176-181): walk the
cached list and pop the first element equal to `perm`. -/
def removeFirst (perm : String) : List String → List String
  | [] => []
  | c :: rest => if perm = c then rest else c :: removeFirst perm rest

/-- `self.get_or_create(**kwargs)` on a manager's row list: return the first
row equal to the requested one untouched, or append a fresh row. -/
def get_or_create (store : List Row) (r : Row) : Row × Bool × List Row :=
  match store.find? (fun x => decide (x = r)) with
  | some existing => (existing, false, store)
  | none => (r, true, store ++ [r])

/-- The whole mutable world the managers touch.  `memberships` is the user
directory relation behind `User.objects.filter(groups=group)`: the pair
`(g, u)` says user `u` is a member of group `g`. -/
structure State where
  userStore : List Row
  groupStore : List Row
  cache : Cache
  catalog : List Permission
  memberships : List (Nat × Nat)
deriving DecidableEq

/-- `User.objects.filter(groups=group)` (member user ids of `group`). -/
def membersOf (s : State) (group : Nat) : List Nat :=
  (s.memberships.filter (fun p => decide (p.1 = group))).map (fun p => p.2)

/-- `Permission.objects.get(content_type=ctype, codename=perm)`; `none` is
the `DoesNotExist` failure. -/
def permissionGet (catalog : List Permission) (ct : Nat) (perm : String) :
    Option Permission :=
  catalog.find? (fun p => decide (p.content_type = ct ∧ p.codename = perm))

/-- The errors this core raises. -/
inductive Err where
  | objectNotPersisted
  | permissionNotFound
deriving DecidableEq

namespace UserObjectPermissionManager

/-- `UserObjectPermissionManager.assign_perm(perm, user, obj)`. -/
def assign_perm (s : State) (perm : String) (user : Nat) (obj : Obj) :
    State × Except Err Row :=
  match obj.pk with
  | none => (s, .error .objectNotPersisted)
  | some pk =>
    let ctype := obj.ctype
    match permissionGet s.catalog ctype perm with
    | none => (s, .error .permissionNotFound)
    | some permission =>
      let gc := get_or_create s.userStore ⟨permission, user, ctype, pk⟩
      let key : CacheKey := ⟨Subject.user user, ctype, pk⟩
      let cache :=
        match cache_get s.cache key with
        | some cache_perms =>
          if perm ∈ cache_perms then s.cache
          else cache_set s.cache key (cache_perms ++ [perm])
        | none => s.cache
      ({ s with userStore := gc.2.2, cache := cache }, .ok gc.1)

/-- `UserObjectPermissionManager.assign(perm, user, obj)`: deprecated alias;
first component is the warnings emitted, second the delegated call. -/
def assign (s : State) (perm : String) (user : Nat) (obj : Obj) :
    List String × (State × Except Err Row) :=
  (["DeprecationWarning: UserObjectPermissionManager method assign is being renamed to assign_perm."],
   assign_perm s perm user obj)

/-- `UserObjectPermissionManager.remove_perm(perm, user, obj)`. -/
def remove_perm (s : State) (perm : String) (user : Nat) (obj : Obj) :
    State × Except Err Unit :=
  match obj.pk with
  | none => (s, .error .objectNotPersisted)
  | some pk =>
    let ctype := obj.ctype
    let store := s.userStore.filter (fun r =>
      !(decide (r.permission.codename = perm ∧ r.permission.content_type = ctype ∧
                r.subjectId = user ∧ r.object_pk = pk)))
    let key : CacheKey := ⟨Subject.user user, ctype, pk⟩
    let cache :=
      match cache_get s.cache key with
      | some cache_perms =>
        if perm ∈ cache_perms then cache_set s.cache key (removeFirst perm cache_perms)
        else s.cache
      | none => s.cache
    ({ s with userStore := store, cache := cache }, .ok ())

/-- `UserObjectPermissionManager.get_for_object(user, obj)`: filters by the
object's content type and the user only. -/
def get_for_object (s : State) (user : Nat) (obj : Obj) :
    State × Except Err (List Row) :=
  match obj.pk with
  | none => (s, .error .objectNotPersisted)
  | some _pk =>
    let ctype := obj.ctype
    (s, .ok (s.userStore.filter (fun r =>
      decide (r.content_type = ctype ∧ r.subjectId = user))))

end UserObjectPermissionManager

namespace GroupObjectPermissionManager

/-- `GroupObjectPermissionManager.assign_perm(perm, group, obj)`: like the
user case on the group store and the group's cache key, then deletes the
per-object cache entry of every current member user. -/
def assign_perm (s : State) (perm : String) (group : Nat) (obj : Obj) :
    State × Except Err Row :=
  match obj.pk with
  | none => (s, .error .objectNotPersisted)
  | some pk =>
    let ctype := obj.ctype
    match permissionGet s.catalog ctype perm with
    | none => (s, .error .permissionNotFound)
    | some permission =>
      let gc := get_or_create s.groupStore ⟨permission, group, ctype, pk⟩
      let key : CacheKey := ⟨Subject.group group, ctype, pk⟩
      let cache1 :=
        match cache_get s.cache key with
        | some cache_perms =>
          if perm ∈ cache_perms then s.cache
          else cache_set s.cache key (cache_perms ++ [perm])
        | none => s.cache
      let cache2 := (membersOf s group).foldl
        (fun c u => cache_delete c ⟨Subject.user u, ctype, pk⟩) cache1
      ({ s with groupStore := gc.2.2, cache := cache2 }, .ok gc.1)

/-- `GroupObjectPermissionManager.assign(perm, user, obj)`: deprecated alias
(the source reuses the user manager's warning text verbatim). -/
def assign (s : State) (perm : String) (user : Nat) (obj : Obj) :
    List String × (State × Except Err Row) :=
  (["DeprecationWarning: UserObjectPermissionManager method assign is being renamed to assign_perm."],
   assign_perm s perm user obj)

/-- `GroupObjectPermissionManager.remove_perm(perm, group, obj)`: filtered
delete, cache patch on the group key, then member fan-out deletion. -/
def remove_perm (s : State) (perm : String) (group : Nat) (obj : Obj) :
    State × Except Err Unit :=
  match obj.pk with
  | none => (s, .error .objectNotPersisted)
  | some pk =>
    let ctype := obj.ctype
    let store := s.groupStore.filter (fun r =>
      !(decide (r.permission.codename = perm ∧ r.permission.content_type = ctype ∧
                r.subjectId = group ∧ r.object_pk = pk)))
    let key : CacheKey := ⟨Subject.group group, ctype, pk⟩
    let cache1 :=
      match cache_get s.cache key with
      | some cache_perms =>
        if perm ∈ cache_perms then cache_set s.cache key (removeFirst perm cache_perms)
        else s.cache
      | none => s.cache
    let cache2 := (membersOf s group).foldl
      (fun c u => cache_delete c ⟨Subject.user u, ctype, pk⟩) cache1
    ({ s with groupStore := store, cache := cache2 }, .ok ())

/-- `GroupObjectPermissionManager.get_for_object(group, obj)`. -/
def get_for_object (s : State) (group : Nat) (obj : Obj) :
    State × Except Err (List Row) :=
  match obj.pk with
  | none => (s, .error .objectNotPersisted)
  | some _pk =>
    let ctype := obj.ctype
    (s, .ok (s.groupStore.filter (fun r =>
      decide (r.content_type = ctype ∧ r.subjectId = group))))

end GroupObjectPermissionManager

/-! ### Concrete example data for evaluating the operations -/

/-- A persisted object: primary key 3, content type 1. -/
def exampleObj : Obj := ⟨some 3, 1⟩

/-- A concrete assignment row for user 7 on `exampleObj`. -/
def exampleRow : Row := ⟨⟨1, "view"⟩, 7, 1, 3⟩

/-- A concrete world: user 7 and group 5 (members: users 10 and 11) have
populated cache entries for `exampleObj`; catalog knows `view` and `edit`. -/
def exampleState : State :=
  { userStore := []
    groupStore := []
    cache := [(⟨Subject.user 7, 1, 3⟩, ["edit"]),
              (⟨Subject.user 10, 1, 3⟩, ["view"]),
              (⟨Subject.user 11, 1, 3⟩, ["x"]),
              (⟨Subject.group 5, 1, 3⟩, ["edit"])]
    catalog := [⟨1, "view"⟩, ⟨1, "edit"⟩]
    memberships := [(5, 10), (5, 11), (6, 10)] }

/-- A variant of `exampleState` with persisted rows for user 7 and group 6
(one matching `exampleObj`, one for another object with primary key 9).
Group 6 has no cache entry of its own. -/
def exampleState2 : State :=
  { exampleState with
    userStore := [exampleRow, ⟨⟨1, "edit"⟩, 7, 1, 9⟩]
    groupStore := [⟨⟨1, "view"⟩, 6, 1, 3⟩, ⟨⟨1, "edit"⟩, 6, 1, 9⟩] }

deriving instance DecidableEq for Except

/-! ### Helper lemmas about the cache and store collaborators -/

theorem find?_filter_of_imp {α : Type} (p q : α → Bool) (l : List α)
    (h : ∀ x, p x = true → q x = true) :
    (l.filter q).find? p = l.find? p := by
  induction l with
  | nil => rfl
  | cons a t ih =>
    by_cases hq : q a
    · rw [List.filter_cons_of_pos hq]
      by_cases hp : p a
      · rw [List.find?_cons_of_pos _ hp, List.find?_cons_of_pos _ hp]
      · rw [List.find?_cons_of_neg _ hp, List.find?_cons_of_neg _ hp, ih]
    · have hp : ¬ p a = true := fun hpa => hq (h a hpa)
      rw [List.filter_cons_of_neg hq, List.find?_cons_of_neg _ hp, ih]

theorem cache_get_set_self (c : Cache) (k : CacheKey) (v : List String) :
    cache_get (cache_set c k v) k = some v := by
  simp [cache_get, cache_set]

theorem cache_get_set_ne (c : Cache) (k k' : CacheKey) (v : List String)
    (h : k' ≠ k) :
    cache_get (cache_set c k v) k' = cache_get c k' := by
  unfold cache_get cache_set
  rw [List.find?_cons_of_neg _ (by simp [Ne.symm h]),
    find?_filter_of_imp _ _ _ (fun x hx => by
      simp only [decide_eq_true_eq] at hx ⊢
      rw [hx]; exact h)]

theorem cache_get_delete_self (c : Cache) (k : CacheKey) :
    cache_get (cache_delete c k) k = none := by
  unfold cache_get cache_delete
  rw [Option.map_eq_none', List.find?_eq_none]
  intro x hx
  simp only [List.mem_filter, decide_eq_true_eq] at hx
  simp [hx.2]

theorem cache_get_delete_ne (c : Cache) (k k' : CacheKey) (h : k' ≠ k) :
    cache_get (cache_delete c k) k' = cache_get c k' := by
  unfold cache_get cache_delete
  rw [find?_filter_of_imp _ _ _ (fun x hx => by
    simp only [decide_eq_true_eq] at hx ⊢
    rw [hx]; exact h)]

theorem cache_get_delete_none (c : Cache) (k k' : CacheKey)
    (h : cache_get c k = none) :
    cache_get (cache_delete c k') k = none := by
  by_cases hk : k = k'
  · subst hk; exact cache_get_delete_self c k
  · rw [cache_get_delete_ne c k' k hk]; exact h

theorem cache_get_foldl_delete_none {β : Type} (f : β → CacheKey)
    (us : List β) (c : Cache) (k : CacheKey) (h : cache_get c k = none) :
    cache_get (us.foldl (fun c u => cache_delete c (f u)) c) k = none := by
  induction us generalizing c with
  | nil => exact h
  | cons a t ih =>
    exact ih (cache_delete c (f a)) (cache_get_delete_none c k (f a) h)

theorem cache_get_foldl_delete_mem {β : Type} (f : β → CacheKey)
    (us : List β) (c : Cache) (u : β) (h : u ∈ us) :
    cache_get (us.foldl (fun c x => cache_delete c (f x)) c) (f u) = none := by
  induction us generalizing c with
  | nil => cases h
  | cons a t ih =>
    rcases List.mem_cons.mp h with rfl | hmem
    · exact cache_get_foldl_delete_none f t _ (f u)
        (cache_get_delete_self c (f u))
    · exact ih (cache_delete c (f a)) hmem

theorem cache_get_foldl_delete_ne {β : Type} (f : β → CacheKey)
    (us : List β) (c : Cache) (k : CacheKey) (h : ∀ u ∈ us, f u ≠ k) :
    cache_get (us.foldl (fun c x => cache_delete c (f x)) c) k = cache_get c k := by
  induction us generalizing c with
  | nil => rfl
  | cons a t ih =>
    rw [List.foldl_cons, ih _ (fun u hu => h u (List.mem_cons_of_mem a hu)),
      cache_get_delete_ne _ _ _ (fun hk => h a (List.mem_cons_self a t) hk.symm)]

theorem removeFirst_length (perm : String) (l : List String) (h : perm ∈ l) :
    (removeFirst perm l).length + 1 = l.length := by
  induction l with
  | nil => cases h
  | cons c rest ih =>
    by_cases hc : perm = c
    · simp [removeFirst, hc]
    · have hmem : perm ∈ rest := by
        rcases List.mem_cons.mp h with h1 | h1
        · exact absurd h1 hc
        · exact h1
      simp only [removeFirst, if_neg hc, List.length_cons]
      rw [← ih hmem]

theorem removeFirst_decomp (perm : String) (l : List String) (h : perm ∈ l) :
    ∃ l1 l2, l = l1 ++ perm :: l2 ∧ perm ∉ l1 ∧ removeFirst perm l = l1 ++ l2 := by
  induction l with
  | nil => cases h
  | cons c rest ih =>
    by_cases hc : perm = c
    · exact ⟨[], rest, by simp [hc], by simp, by simp [removeFirst, hc]⟩
    · have hmem : perm ∈ rest := by
        rcases List.mem_cons.mp h with h1 | h1
        · exact absurd h1 hc
        · exact h1
      obtain ⟨l1, l2, heq, hni, hrf⟩ := ih hmem
      refine ⟨c :: l1, l2, by simp [heq], ?_, ?_⟩
      · intro hmem1
        rcases List.mem_cons.mp hmem1 with h1 | h1
        · exact hc h1
        · exact hni h1
      · simp [removeFirst, if_neg hc, hrf]

theorem find?_eq_none_of_not_mem (store : List Row) (r : Row) (h : r ∉ store) :
    store.find? (fun x => decide (x = r)) = none := by
  rw [List.find?_eq_none]
  intro x hx hdec
  exact h (by simpa using (of_decide_eq_true hdec ▸ hx))

theorem get_or_create_of_not_mem (store : List Row) (r : Row) (h : r ∉ store) :
    get_or_create store r = (r, true, store ++ [r]) := by
  simp [get_or_create, find?_eq_none_of_not_mem store r h]

theorem get_or_create_append_self (store : List Row) (r : Row) (h : r ∉ store) :
    get_or_create (store ++ [r]) r = (r, false, store ++ [r]) := by
  unfold get_or_create
  rw [List.find?_append, find?_eq_none_of_not_mem store r h]
  simp

/-! ### Claim theorems -/

/-- Claim C6: for every object that is not persisted (its primary key is
null/missing), grant, revoke and listForObject on either manager fail with
`ObjectNotPersisted` and return the state — store and cache — completely
unchanged. -/
theorem C6_unsaved_object_rejection (s : State) (perm : String) (subj : Nat)
    (obj : Obj) (h : obj.pk = none) :
    UserObjectPermissionManager.assign_perm s perm subj obj =
      (s, .error .objectNotPersisted) ∧
    UserObjectPermissionManager.remove_perm s perm subj obj =
      (s, .error .objectNotPersisted) ∧
    UserObjectPermissionManager.get_for_object s subj obj =
      (s, .error .objectNotPersisted) ∧
    GroupObjectPermissionManager.assign_perm s perm subj obj =
      (s, .error .objectNotPersisted) ∧
    GroupObjectPermissionManager.remove_perm s perm subj obj =
      (s, .error .objectNotPersisted) ∧
    GroupObjectPermissionManager.get_for_object s subj obj =
      (s, .error .objectNotPersisted) := by
  refine ⟨?_, ?_, ?_, ?_, ?_, ?_⟩ <;>
    simp [UserObjectPermissionManager.assign_perm,
      UserObjectPermissionManager.remove_perm,
      UserObjectPermissionManager.get_for_object,
      GroupObjectPermissionManager.assign_perm,
      GroupObjectPermissionManager.remove_perm,
      GroupObjectPermissionManager.get_for_object, h]

/-- Witness for C6 at a concrete unsaved object. -/
theorem C6_unsaved_object_rejection_witness :
    UserObjectPermissionManager.assign_perm exampleState "view" 7 ⟨none, 1⟩ =
      (exampleState, .error .objectNotPersisted) :=
  (C6_unsaved_object_rejection exampleState "view" 7 ⟨none, 1⟩ rfl).1

/-- Claim C7: granting on a persisted object whose (type, codename) pair is
not in the permission catalog fails with the permission-lookup error and
leaves the whole state (store and cache) unchanged, on either manager. -/
theorem C7_unknown_permission_rejection (s : State) (perm : String)
    (subj pk ct : Nat) (h : permissionGet s.catalog ct perm = none) :
    UserObjectPermissionManager.assign_perm s perm subj ⟨some pk, ct⟩ =
      (s, .error .permissionNotFound) ∧
    GroupObjectPermissionManager.assign_perm s perm subj ⟨some pk, ct⟩ =
      (s, .error .permissionNotFound) := by
  constructor <;>
    simp [UserObjectPermissionManager.assign_perm,
      GroupObjectPermissionManager.assign_perm, h]

/-- Witness for C7 at a codename missing from the concrete catalog. -/
theorem C7_unknown_permission_rejection_witness :
    UserObjectPermissionManager.assign_perm exampleState "nonexistent" 7 ⟨some 3, 1⟩ =
      (exampleState, .error .permissionNotFound) :=
  (C7_unknown_permission_rejection exampleState "nonexistent" 7 3 1 (by decide)).1

/-- Claim C8: listForObject on a persisted object returns exactly the store
rows filtered by the subject and the object's content type — with no
restriction to the specific object instance (`object_pk` is not consulted) —
and returns the state unchanged (no cache read or write, store untouched). -/
theorem C8_get_for_object_filters_by_type (s : State) (subj pk ct : Nat) :
    (UserObjectPermissionManager.get_for_object s subj ⟨some pk, ct⟩).1 = s ∧
    (∀ l, (UserObjectPermissionManager.get_for_object s subj ⟨some pk, ct⟩).2 = .ok l →
      ∀ r : Row, r ∈ l ↔ (r ∈ s.userStore ∧ r.content_type = ct ∧ r.subjectId = subj)) ∧
    (GroupObjectPermissionManager.get_for_object s subj ⟨some pk, ct⟩).1 = s ∧
    (∀ l, (GroupObjectPermissionManager.get_for_object s subj ⟨some pk, ct⟩).2 = .ok l →
      ∀ r : Row, r ∈ l ↔ (r ∈ s.groupStore ∧ r.content_type = ct ∧ r.subjectId = subj)) := by
  refine ⟨rfl, ?_, rfl, ?_⟩ <;>
  · intro l hl r
    simp only [UserObjectPermissionManager.get_for_object,
      GroupObjectPermissionManager.get_for_object, Except.ok.injEq] at hl
    subst hl
    simp [List.mem_filter]

/-- Witness for C8: the row for another object (primary key 9, same type)
is still returned for `exampleObj` (primary key 3). -/
theorem C8_get_for_object_filters_by_type_witness :
    (⟨⟨1, "edit"⟩, 7, 1, 9⟩ : Row) ∈ [exampleRow, ⟨⟨1, "edit"⟩, 7, 1, 9⟩] ↔
      ((⟨⟨1, "edit"⟩, 7, 1, 9⟩ : Row) ∈ exampleState2.userStore ∧ (1 : Nat) = 1 ∧ (7 : Nat) = 7) :=
  (C8_get_for_object_filters_by_type exampleState2 7 3 1).2.1
    [exampleRow, ⟨⟨1, "edit"⟩, 7, 1, 9⟩] rfl ⟨⟨1, "edit"⟩, 7, 1, 9⟩

/-- Claim C1: for a successful user grant on a persisted object with a known
permission: if the (user, object) cache entry is present and does not already
contain the codename, grant appends the codename and rewrites the entry so it
contains the codename exactly once, and a second identical grant adds no
duplicate (it leaves the cache unchanged); if the entry is absent, the cache
is left untouched (no population). -/
theorem C1_user_grant_cache_patch (s : State) (perm : String) (user pk ct : Nat)
    (s' : State) (r : Row)
    (h : UserObjectPermissionManager.assign_perm s perm user ⟨some pk, ct⟩ = (s', .ok r)) :
    (∀ l, cache_get s.cache ⟨Subject.user user, ct, pk⟩ = some l → perm ∉ l →
      cache_get s'.cache ⟨Subject.user user, ct, pk⟩ = some (l ++ [perm]) ∧
      List.count perm (l ++ [perm]) = 1 ∧
      (UserObjectPermissionManager.assign_perm s' perm user ⟨some pk, ct⟩).1.cache = s'.cache) ∧
    (cache_get s.cache ⟨Subject.user user, ct, pk⟩ = none → s'.cache = s.cache) := by
  cases hp : permissionGet s.catalog ct perm with
  | none => simp [UserObjectPermissionManager.assign_perm, hp] at h
  | some p =>
    simp only [UserObjectPermissionManager.assign_perm, hp] at h
    rw [Prod.mk.injEq] at h
    obtain ⟨h1, h2⟩ := h
    have hcat : s'.catalog = s.catalog := by rw [← h1]
    constructor
    · intro l hl hnl
      have hcache : s'.cache = cache_set s.cache ⟨Subject.user user, ct, pk⟩ (l ++ [perm]) := by
        rw [← h1]
        dsimp only
        rw [hl]
        dsimp only
        rw [if_neg hnl]
      refine ⟨?_, ?_, ?_⟩
      · rw [hcache, cache_get_set_self]
      · rw [List.count_append, List.count_eq_zero.mpr hnl, List.count_singleton_self]
      · have hmem : perm ∈ l ++ [perm] := by simp
        simp [UserObjectPermissionManager.assign_perm, hcat, hp, hcache,
          cache_get_set_self, hmem]
    · intro hnone
      rw [← h1]
      dsimp only
      rw [hnone]

/-- Witness for C1: granting `view` to user 7 on the concrete state turns the
cached list `[edit]` into `[edit, view]`. -/
theorem C1_user_grant_cache_patch_witness :
    cache_get (UserObjectPermissionManager.assign_perm exampleState "view" 7 ⟨some 3, 1⟩).1.cache
      ⟨Subject.user 7, 1, 3⟩ = some ["edit", "view"] :=
  ((C1_user_grant_cache_patch exampleState "view" 7 3 1
      (UserObjectPermissionManager.assign_perm exampleState "view" 7 ⟨some 3, 1⟩).1
      exampleRow (by decide)).1 ["edit"] (by decide) (by decide)).1

/-- Counterexample to claim C2 as stated: on a group revoke whose (group,
object) cache entry is absent, the cache is NOT left untouched — the member
fan-out still deletes member users' entries.  Concretely: group 6 (member:
user 10) has no cache entry, yet `remove_perm` deletes user 10's entry. -/
theorem C2_revoke_absent_cache_counterexample :
    cache_get exampleState.cache ⟨Subject.group 6, 1, 3⟩ = none ∧
    cache_get exampleState.cache ⟨Subject.user 10, 1, 3⟩ = some ["view"] ∧
    cache_get (GroupObjectPermissionManager.remove_perm exampleState "view" 6 ⟨some 3, 1⟩).1.cache
      ⟨Subject.user 10, 1, 3⟩ = none ∧
    (GroupObjectPermissionManager.remove_perm exampleState "view" 6 ⟨some 3, 1⟩).1.cache ≠
      exampleState.cache := by
  decide

/-- Claim C2 (amended): for every revoke on a persisted object, if the cache
entry for the (subject, object) key is present and contains the codename,
revoke removes exactly the first matching occurrence (length drops by exactly
one even if the codename appears more than once) and rewrites the entry; if
the entry is absent, the subject's own entry stays untouched — for a user
revoke the whole cache is untouched, while a group revoke still deletes its
member users' entries. -/
theorem C2_revoke_cache_patch (s : State) (perm : String) (subj pk ct : Nat)
    (s1 s2 : State)
    (h1 : UserObjectPermissionManager.remove_perm s perm subj ⟨some pk, ct⟩ = (s1, .ok ()))
    (h2 : GroupObjectPermissionManager.remove_perm s perm subj ⟨some pk, ct⟩ = (s2, .ok ())) :
    (∀ l, cache_get s.cache ⟨Subject.user subj, ct, pk⟩ = some l → perm ∈ l →
      ∃ l1 l2, l = l1 ++ perm :: l2 ∧ perm ∉ l1 ∧
        cache_get s1.cache ⟨Subject.user subj, ct, pk⟩ = some (l1 ++ l2) ∧
        (l1 ++ l2).length + 1 = l.length) ∧
    (cache_get s.cache ⟨Subject.user subj, ct, pk⟩ = none → s1.cache = s.cache) ∧
    (∀ l, cache_get s.cache ⟨Subject.group subj, ct, pk⟩ = some l → perm ∈ l →
      ∃ l1 l2, l = l1 ++ perm :: l2 ∧ perm ∉ l1 ∧
        cache_get s2.cache ⟨Subject.group subj, ct, pk⟩ = some (l1 ++ l2) ∧
        (l1 ++ l2).length + 1 = l.length) ∧
    (cache_get s.cache ⟨Subject.group subj, ct, pk⟩ = none →
      cache_get s2.cache ⟨Subject.group subj, ct, pk⟩ = none) := by
  simp only [UserObjectPermissionManager.remove_perm] at h1
  rw [Prod.mk.injEq] at h1
  obtain ⟨h1, -⟩ := h1
  simp only [GroupObjectPermissionManager.remove_perm] at h2
  rw [Prod.mk.injEq] at h2
  obtain ⟨h2, -⟩ := h2
  refine ⟨?_, ?_, ?_, ?_⟩
  · intro l hl hml
    obtain ⟨l1, l2, hdec, hni, hrf⟩ := removeFirst_decomp perm l hml
    refine ⟨l1, l2, hdec, hni, ?_, ?_⟩
    · rw [← h1]
      dsimp only
      rw [hl]
      dsimp only
      rw [if_pos hml, cache_get_set_self, hrf]
    · have hlen := removeFirst_length perm l hml
      rw [hrf] at hlen
      exact hlen
  · intro hnone
    rw [← h1]
    dsimp only
    rw [hnone]
  · intro l hl hml
    obtain ⟨l1, l2, hdec, hni, hrf⟩ := removeFirst_decomp perm l hml
    refine ⟨l1, l2, hdec, hni, ?_, ?_⟩
    · rw [← h2]
      dsimp only
      rw [cache_get_foldl_delete_ne (fun u => ⟨Subject.user u, ct, pk⟩) _ _ _
        (fun u _ => by simp)]
      rw [hl]
      dsimp only
      rw [if_pos hml, cache_get_set_self, hrf]
    · have hlen := removeFirst_length perm l hml
      rw [hrf] at hlen
      exact hlen
  · intro hnone
    rw [← h2]
    dsimp only
    rw [hnone]
    dsimp only
    exact cache_get_foldl_delete_none (fun u => ⟨Subject.user u, ct, pk⟩) _ _ _ hnone

/-- Witness for C2 (amended): revoking `edit` from user 7 pops the single
occurrence from the cached list `[edit]`. -/
theorem C2_revoke_cache_patch_witness :
    ∃ l1 l2, ["edit"] = l1 ++ "edit" :: l2 ∧ "edit" ∉ l1 ∧
      cache_get (UserObjectPermissionManager.remove_perm exampleState "edit" 7 ⟨some 3, 1⟩).1.cache
        ⟨Subject.user 7, 1, 3⟩ = some (l1 ++ l2) ∧
      (l1 ++ l2).length + 1 = (["edit"] : List String).length :=
  (C2_revoke_cache_patch exampleState "edit" 7 3 1
      (UserObjectPermissionManager.remove_perm exampleState "edit" 7 ⟨some 3, 1⟩).1
      (GroupObjectPermissionManager.remove_perm exampleState "edit" 7 ⟨some 3, 1⟩).1
      (by decide) (by decide)).1 ["edit"] (by decide) (by decide)

/-- Claim C3: every successful group grant and group revoke, after updating
the group's own cache entry exactly as in the user case, deletes the
per-object cache entry of every current member user, so each member's entry
for that object is absent when the call returns. -/
theorem C3_group_fanout_invalidation (s : State) (perm : String) (g pk ct : Nat)
    (s1 s2 : State) (r : Row)
    (hg : GroupObjectPermissionManager.assign_perm s perm g ⟨some pk, ct⟩ = (s1, .ok r))
    (hr : GroupObjectPermissionManager.remove_perm s perm g ⟨some pk, ct⟩ = (s2, .ok ())) :
    (∀ u ∈ membersOf s g, cache_get s1.cache ⟨Subject.user u, ct, pk⟩ = none) ∧
    (∀ l, cache_get s.cache ⟨Subject.group g, ct, pk⟩ = some l → perm ∉ l →
      cache_get s1.cache ⟨Subject.group g, ct, pk⟩ = some (l ++ [perm])) ∧
    (∀ u ∈ membersOf s g, cache_get s2.cache ⟨Subject.user u, ct, pk⟩ = none) := by
  simp only [GroupObjectPermissionManager.remove_perm] at hr
  rw [Prod.mk.injEq] at hr
  obtain ⟨hr, -⟩ := hr
  cases hp : permissionGet s.catalog ct perm with
  | none => simp [GroupObjectPermissionManager.assign_perm, hp] at hg
  | some p =>
    simp only [GroupObjectPermissionManager.assign_perm, hp] at hg
    rw [Prod.mk.injEq] at hg
    obtain ⟨hg, -⟩ := hg
    refine ⟨?_, ?_, ?_⟩
    · intro u hu
      rw [← hg]
      dsimp only
      exact cache_get_foldl_delete_mem (fun u => ⟨Subject.user u, ct, pk⟩) _ _ u hu
    · intro l hl hnl
      rw [← hg]
      dsimp only
      rw [cache_get_foldl_delete_ne (fun u => ⟨Subject.user u, ct, pk⟩) _ _ _
        (fun u _ => by simp)]
      rw [hl]
      dsimp only
      rw [if_neg hnl, cache_get_set_self]
    · intro u hu
      rw [← hr]
      dsimp only
      exact cache_get_foldl_delete_mem (fun u => ⟨Subject.user u, ct, pk⟩) _ _ u hu

/-- Witness for C3: granting `view` to group 5 empties the cache entries of
members 10 and 11 and appends `view` to the group's own entry. -/
theorem C3_group_fanout_invalidation_witness :
    cache_get (GroupObjectPermissionManager.assign_perm exampleState "view" 5 ⟨some 3, 1⟩).1.cache
      ⟨Subject.user 10, 1, 3⟩ = none :=
  (C3_group_fanout_invalidation exampleState "view" 5 3 1
      (GroupObjectPermissionManager.assign_perm exampleState "view" 5 ⟨some 3, 1⟩).1
      (GroupObjectPermissionManager.remove_perm exampleState "view" 5 ⟨some 3, 1⟩).1
      ⟨⟨1, "view"⟩, 5, 1, 3⟩ (by decide) (by decide)).1 10 (by decide)

/-- Claim C4: grant is idempotent on the persisted store: starting from a
store with no matching assignment row, granting twice with identical
arguments yields exactly one persisted row (the second call returns the
existing record and leaves the store untouched), and listForObject returns
that row exactly once — on either manager. -/
theorem C4_idempotent_grant (s : State) (perm : String) (subj pk ct : Nat)
    (p : Permission)
    (hcat : permissionGet s.catalog ct perm = some p)
    (hnou : (⟨p, subj, ct, pk⟩ : Row) ∉ s.userStore)
    (hnog : (⟨p, subj, ct, pk⟩ : Row) ∉ s.groupStore) :
    ((UserObjectPermissionManager.assign_perm s perm subj ⟨some pk, ct⟩).2 =
      .ok ⟨p, subj, ct, pk⟩ ∧
    (UserObjectPermissionManager.assign_perm s perm subj ⟨some pk, ct⟩).1.userStore =
      s.userStore ++ [⟨p, subj, ct, pk⟩] ∧
    List.count (⟨p, subj, ct, pk⟩ : Row)
      (UserObjectPermissionManager.assign_perm s perm subj ⟨some pk, ct⟩).1.userStore = 1 ∧
    (UserObjectPermissionManager.assign_perm
        (UserObjectPermissionManager.assign_perm s perm subj ⟨some pk, ct⟩).1
        perm subj ⟨some pk, ct⟩).2 = .ok ⟨p, subj, ct, pk⟩ ∧
    (UserObjectPermissionManager.assign_perm
        (UserObjectPermissionManager.assign_perm s perm subj ⟨some pk, ct⟩).1
        perm subj ⟨some pk, ct⟩).1.userStore =
      (UserObjectPermissionManager.assign_perm s perm subj ⟨some pk, ct⟩).1.userStore ∧
    (∃ l, (UserObjectPermissionManager.get_for_object
        (UserObjectPermissionManager.assign_perm s perm subj ⟨some pk, ct⟩).1
        subj ⟨some pk, ct⟩).2 = .ok l ∧
      List.count (⟨p, subj, ct, pk⟩ : Row) l = 1)) ∧
    ((GroupObjectPermissionManager.assign_perm s perm subj ⟨some pk, ct⟩).2 =
      .ok ⟨p, subj, ct, pk⟩ ∧
    (GroupObjectPermissionManager.assign_perm s perm subj ⟨some pk, ct⟩).1.groupStore =
      s.groupStore ++ [⟨p, subj, ct, pk⟩] ∧
    List.count (⟨p, subj, ct, pk⟩ : Row)
      (GroupObjectPermissionManager.assign_perm s perm subj ⟨some pk, ct⟩).1.groupStore = 1 ∧
    (GroupObjectPermissionManager.assign_perm
        (GroupObjectPermissionManager.assign_perm s perm subj ⟨some pk, ct⟩).1
        perm subj ⟨some pk, ct⟩).2 = .ok ⟨p, subj, ct, pk⟩ ∧
    (GroupObjectPermissionManager.assign_perm
        (GroupObjectPermissionManager.assign_perm s perm subj ⟨some pk, ct⟩).1
        perm subj ⟨some pk, ct⟩).1.groupStore =
      (GroupObjectPermissionManager.assign_perm s perm subj ⟨some pk, ct⟩).1.groupStore ∧
    (∃ l, (GroupObjectPermissionManager.get_for_object
        (GroupObjectPermissionManager.assign_perm s perm subj ⟨some pk, ct⟩).1
        subj ⟨some pk, ct⟩).2 = .ok l ∧
      List.count (⟨p, subj, ct, pk⟩ : Row) l = 1)) := by
  have hgu := get_or_create_of_not_mem s.userStore ⟨p, subj, ct, pk⟩ hnou
  have hgu2 := get_or_create_append_self s.userStore ⟨p, subj, ct, pk⟩ hnou
  have hgg := get_or_create_of_not_mem s.groupStore ⟨p, subj, ct, pk⟩ hnog
  have hgg2 := get_or_create_append_self s.groupStore ⟨p, subj, ct, pk⟩ hnog
  have hcu : List.count (⟨p, subj, ct, pk⟩ : Row) (s.userStore ++ [⟨p, subj, ct, pk⟩]) = 1 := by
    rw [List.count_append, List.count_eq_zero.mpr hnou, List.count_singleton_self]
  have hcg : List.count (⟨p, subj, ct, pk⟩ : Row) (s.groupStore ++ [⟨p, subj, ct, pk⟩]) = 1 := by
    rw [List.count_append, List.count_eq_zero.mpr hnog, List.count_singleton_self]
  refine ⟨⟨?_, ?_, ?_, ?_, ?_, ?_⟩, ⟨?_, ?_, ?_, ?_, ?_, ?_⟩⟩
  · simp only [UserObjectPermissionManager.assign_perm, hcat, hgu]
  · simp only [UserObjectPermissionManager.assign_perm, hcat, hgu]
  · simp only [UserObjectPermissionManager.assign_perm, hcat, hgu]
    exact hcu
  · simp only [UserObjectPermissionManager.assign_perm, hcat, hgu, hgu2]
  · simp only [UserObjectPermissionManager.assign_perm, hcat, hgu, hgu2]
  · simp only [UserObjectPermissionManager.assign_perm,
      UserObjectPermissionManager.get_for_object, hcat, hgu]
    refine ⟨_, rfl, ?_⟩
    rw [List.filter_append]
    have hfr : List.filter (fun r => decide (r.content_type = ct ∧ r.subjectId = subj))
        [(⟨p, subj, ct, pk⟩ : Row)] = [⟨p, subj, ct, pk⟩] := by simp
    rw [hfr, List.count_append, List.count_singleton_self,
      List.count_eq_zero.mpr (fun hm => hnou (List.mem_filter.mp hm).1)]
  · simp only [GroupObjectPermissionManager.assign_perm, hcat, hgg]
  · simp only [GroupObjectPermissionManager.assign_perm, hcat, hgg]
  · simp only [GroupObjectPermissionManager.assign_perm, hcat, hgg]
    exact hcg
  · simp only [GroupObjectPermissionManager.assign_perm, hcat, hgg, hgg2]
  · simp only [GroupObjectPermissionManager.assign_perm, hcat, hgg, hgg2]
  · simp only [GroupObjectPermissionManager.assign_perm,
      GroupObjectPermissionManager.get_for_object, hcat, hgg]
    refine ⟨_, rfl, ?_⟩
    rw [List.filter_append]
    have hfr : List.filter (fun r => decide (r.content_type = ct ∧ r.subjectId = subj))
        [(⟨p, subj, ct, pk⟩ : Row)] = [⟨p, subj, ct, pk⟩] := by simp
    rw [hfr, List.count_append, List.count_singleton_self,
      List.count_eq_zero.mpr (fun hm => hnog (List.mem_filter.mp hm).1)]

/-- Witness for C4: the first grant of `view` to user 7 creates the row. -/
theorem C4_idempotent_grant_witness :
    (UserObjectPermissionManager.assign_perm exampleState "view" 7 ⟨some 3, 1⟩).2 =
      .ok ⟨⟨1, "view"⟩, 7, 1, 3⟩ :=
  (C4_idempotent_grant exampleState "view" 7 3 1 ⟨1, "view"⟩
      (by decide) (by decide) (by decide)).1.1

/-- Claim C5: grant immediately followed by revoke of the same (permission,
subject, object) leaves zero store rows matching the permission codename,
the permission's object type, the subject and the object key — on either
manager. -/
theorem C5_grant_revoke_round_trip (s : State) (perm : String) (subj pk ct : Nat)
    (su sg : State) (ru rg : Row)
    (hu : UserObjectPermissionManager.assign_perm s perm subj ⟨some pk, ct⟩ = (su, .ok ru))
    (hg : GroupObjectPermissionManager.assign_perm s perm subj ⟨some pk, ct⟩ = (sg, .ok rg)) :
    (∀ row ∈ (UserObjectPermissionManager.remove_perm su perm subj ⟨some pk, ct⟩).1.userStore,
      ¬(row.permission.codename = perm ∧ row.permission.content_type = ct ∧
        row.subjectId = subj ∧ row.object_pk = pk)) ∧
    (∀ row ∈ (GroupObjectPermissionManager.remove_perm sg perm subj ⟨some pk, ct⟩).1.groupStore,
      ¬(row.permission.codename = perm ∧ row.permission.content_type = ct ∧
        row.subjectId = subj ∧ row.object_pk = pk)) := by
  constructor
  · intro row hrow
    simp only [UserObjectPermissionManager.remove_perm, List.mem_filter,
      Bool.not_eq_true', decide_eq_false_iff_not] at hrow
    exact hrow.2
  · intro row hrow
    simp only [GroupObjectPermissionManager.remove_perm, List.mem_filter,
      Bool.not_eq_true', decide_eq_false_iff_not] at hrow
    exact hrow.2

/-- Witness for C5: after grant-then-revoke of `view` for user 7, the row it
created is gone. -/
theorem C5_grant_revoke_round_trip_witness :
    exampleRow ∉ (UserObjectPermissionManager.remove_perm
      (UserObjectPermissionManager.assign_perm exampleState "view" 7 ⟨some 3, 1⟩).1
      "view" 7 ⟨some 3, 1⟩).1.userStore :=
  fun hmem =>
    (C5_grant_revoke_round_trip exampleState "view" 7 3 1
        (UserObjectPermissionManager.assign_perm exampleState "view" 7 ⟨some 3, 1⟩).1
        (GroupObjectPermissionManager.assign_perm exampleState "view" 7 ⟨some 3, 1⟩).1
        exampleRow ⟨⟨1, "view"⟩, 7, 1, 3⟩ (by decide) (by decide)).1
      exampleRow hmem (by decide)

/-- Claim C10 (implicit): the group manager's member-cache fan-out is
unconditional with respect to the store outcome: a grant that finds an
already-existing assignment row (store unchanged) and a revoke whose filter
matches zero rows (store unchanged) both still delete every current member
user's per-object cache entry, even when the group's own cache entry is
absent. -/
theorem C10_unconditional_member_fanout (s : State) (permG permR : String)
    (g pk ct : Nat) (p : Permission) (s1 s2 : State) (r : Row)
    (hcat : permissionGet s.catalog ct permG = some p)
    (hrow : (⟨p, g, ct, pk⟩ : Row) ∈ s.groupStore)
    (hgc : cache_get s.cache ⟨Subject.group g, ct, pk⟩ = none)
    (hnm : ∀ row ∈ s.groupStore, ¬(row.permission.codename = permR ∧
      row.permission.content_type = ct ∧ row.subjectId = g ∧ row.object_pk = pk))
    (hg : GroupObjectPermissionManager.assign_perm s permG g ⟨some pk, ct⟩ = (s1, .ok r))
    (hr : GroupObjectPermissionManager.remove_perm s permR g ⟨some pk, ct⟩ = (s2, .ok ())) :
    s1.groupStore = s.groupStore ∧
    (∀ u ∈ membersOf s g, cache_get s1.cache ⟨Subject.user u, ct, pk⟩ = none) ∧
    s2.groupStore = s.groupStore ∧
    (∀ u ∈ membersOf s g, cache_get s2.cache ⟨Subject.user u, ct, pk⟩ = none) := by
  have hsome : (s.groupStore.find? (fun x => decide (x = ⟨p, g, ct, pk⟩))).isSome := by
    rw [List.find?_isSome]
    exact ⟨⟨p, g, ct, pk⟩, hrow, by simp⟩
  obtain ⟨e, he⟩ := Option.isSome_iff_exists.mp hsome
  have hgoc : get_or_create s.groupStore ⟨p, g, ct, pk⟩ = (e, false, s.groupStore) := by
    simp [get_or_create, he]
  simp only [GroupObjectPermissionManager.assign_perm, hcat, hgoc] at hg
  rw [Prod.mk.injEq] at hg
  obtain ⟨hg, -⟩ := hg
  have hkeep : s.groupStore.filter (fun row =>
      !(decide (row.permission.codename = permR ∧ row.permission.content_type = ct ∧
        row.subjectId = g ∧ row.object_pk = pk))) = s.groupStore :=
    List.filter_eq_self.mpr (fun a ha => by
      rw [Bool.not_eq_true', decide_eq_false_iff_not]
      exact hnm a ha)
  simp only [GroupObjectPermissionManager.remove_perm, hkeep] at hr
  rw [Prod.mk.injEq] at hr
  obtain ⟨hr, -⟩ := hr
  refine ⟨?_, ?_, ?_, ?_⟩
  · rw [← hg]
  · intro u hu
    rw [← hg]
    dsimp only
    exact cache_get_foldl_delete_mem (fun u => ⟨Subject.user u, ct, pk⟩) _ _ u hu
  · rw [← hr]
  · intro u hu
    rw [← hr]
    dsimp only
    exact cache_get_foldl_delete_mem (fun u => ⟨Subject.user u, ct, pk⟩) _ _ u hu

/-- Witness for C10: granting `view` to group 6 (whose row already exists and
whose own cache entry is absent) leaves the store unchanged. -/
theorem C10_unconditional_member_fanout_witness :
    (GroupObjectPermissionManager.assign_perm exampleState2 "view" 6 ⟨some 3, 1⟩).1.groupStore =
      exampleState2.groupStore :=
  (C10_unconditional_member_fanout exampleState2 "view" "edit" 6 3 1 ⟨1, "view"⟩
      (GroupObjectPermissionManager.assign_perm exampleState2 "view" 6 ⟨some 3, 1⟩).1
      (GroupObjectPermissionManager.remove_perm exampleState2 "edit" 6 ⟨some 3, 1⟩).1
      ⟨⟨1, "view"⟩, 6, 1, 3⟩
      (by decide) (by decide) (by decide) (by decide) (by decide) (by decide)).1

/-- Claim C9: the deprecated alias `assign` produces exactly the delegated
`assign_perm` result and state effects, differing only in emitting one
deprecation warning, on either manager. -/
theorem C9_deprecated_alias_delegates (s : State) (perm : String) (subj : Nat)
    (obj : Obj) :
    (UserObjectPermissionManager.assign s perm subj obj).2 =
      UserObjectPermissionManager.assign_perm s perm subj obj ∧
    (UserObjectPermissionManager.assign s perm subj obj).1.length = 1 ∧
    (GroupObjectPermissionManager.assign s perm subj obj).2 =
      GroupObjectPermissionManager.assign_perm s perm subj obj ∧
    (GroupObjectPermissionManager.assign s perm subj obj).1.length = 1 :=
  ⟨rfl, rfl, rfl, rfl⟩

end Guardian
